import Mathlib

set_option linter.unusedVariables false

/-! Shallow embedding of the vertical game's effects engine and game loop
    (src/frontend/game): the numeric utilities of utils/baseUtils.js, the
    particle and wave emitters and the Burst, BlastWave and StarStream
    effect entities of objects/effects.js, the splice-based per-tick
    iteration shared by every effect loop and by the per-frame effects
    sweep, the game-state record with its setState merge, the throttled
    life-loss closure, the lane-shift operations and the game-over check
    of the play step of main.js.  Randomness (Math.random) is passed in
    explicitly as rational draws in the interval from 0 inclusive to 1
    exclusive; colors are passed as pre-converted hue values because the
    hex-to-hsl conversion is done by the external color-convert library. -/

/-- utils/baseUtils.js randomBetween: rand = Math.random()*(max-min)+min,
    rounded with JS Math.round (floor of rand + 1/2) when int is requested.
    The Math.random() draw is the explicit argument r. -/
def randomBetween (min max : ℚ) (int : Bool) (r : ℚ) : ℚ :=
  let rand := r * (max - min) + min
  if int then ((⌊rand + 1/2⌋ : ℤ) : ℚ) else rand

/-- A JS attribute parameter as the utilities accept it: either a plain
    numeric value or a two-element min-max array. -/
inductive VR where
  | val (v : ℚ)
  | range (lo hi : ℚ)
deriving DecidableEq

/-- utils/baseUtils.js valueOrRange: for an array, randomBetween of its two
    entries with int = true; otherwise the value itself, unchanged. -/
def valueOrRange (vr : VR) (r : ℚ) : ℚ :=
  match vr with
  | .val v => v
  | .range lo hi => randomBetween lo hi true r

/-- A particle produced by praticleEmitter (objects/effects.js): position,
    velocity, radius, hue, alpha. -/
structure Particle where
  x : ℚ
  y : ℚ
  vx : ℚ
  vy : ℚ
  rd : ℚ
  hue : ℚ
  alpha : ℚ
deriving DecidableEq

/-- The declarative parameter set of praticleEmitter; each attribute is a
    fixed value or a min-max range.  The field defaults are the source's
    destructuring defaults: n = 1, x = 0, y = 0, vx = 1, vy = 1, rd = 2,
    hue = 0, alpha = 1. -/
structure PEmitterArgs where
  n : ℕ := 1
  x : VR := .val 0
  y : VR := .val 0
  vx : VR := .val 1
  vy : VR := .val 1
  rd : VR := .val 2
  hue : VR := .val 0
  alpha : VR := .val 1

/-- objects/effects.js praticleEmitter: n independent samples, each
    attribute resolved through valueOrRange; rs i j is the Math.random()
    draw consumed by sample i for attribute j. -/
def praticleEmitter (a : PEmitterArgs) (rs : ℕ → ℕ → ℚ) : List Particle :=
  (List.range a.n).map fun i =>
    { x := valueOrRange a.x (rs i 0)
      y := valueOrRange a.y (rs i 1)
      vx := valueOrRange a.vx (rs i 2)
      vy := valueOrRange a.vy (rs i 3)
      rd := valueOrRange a.rd (rs i 4)
      hue := valueOrRange a.hue (rs i 5)
      alpha := valueOrRange a.alpha (rs i 6) }

/-- A concentric-ring wave produced by radialWaveEmitter: position, radius,
    stroke width, hue, alpha. -/
structure Wave where
  x : ℚ
  y : ℚ
  rd : ℚ
  width : ℚ
  hue : ℚ
  alpha : ℚ
deriving DecidableEq

/-- The declarative parameter set of radialWaveEmitter, with the source's
    destructuring defaults: n = 1, x = 0, y = 0, rd = 2, width = 50,
    hue = 0, alpha = 1. -/
structure WEmitterArgs where
  n : ℕ := 1
  x : VR := .val 0
  y : VR := .val 0
  rd : VR := .val 2
  width : VR := .val 50
  hue : VR := .val 0
  alpha : VR := .val 1

/-- objects/effects.js radialWaveEmitter: n independent wave samples, each
    attribute resolved through valueOrRange. -/
def radialWaveEmitter (a : WEmitterArgs) (rs : ℕ → ℕ → ℚ) : List Wave :=
  (List.range a.n).map fun i =>
    { x := valueOrRange a.x (rs i 0)
      y := valueOrRange a.y (rs i 1)
      rd := valueOrRange a.rd (rs i 2)
      width := valueOrRange a.width (rs i 3)
      hue := valueOrRange a.hue (rs i 4)
      alpha := valueOrRange a.alpha (rs i 5) }

/-- The iteration pattern shared by Burst.tick, BlastWave.tick,
    StarStream.tick and the per-frame effects sweeps of main.js: a forward
    for-loop with index i over a mutable array that, at each position,
    writes the updated element back, removes it with splice(i, 1) when the
    removal predicate holds on the updated element, draws the updated
    element, and then increments i.  Because i is incremented after a
    splice, the element shifted into position i is skipped.  The first
    component is the final content of the array (the survivors); the
    second component is the list of elements actually processed and drawn
    this tick, in processing order. -/
def spliceTick (upd : α → α) (rm : α → Bool) : List α → List α × List α
  | [] => ([], [])
  | [e] =>
    if rm (upd e) then ([], [upd e]) else ([upd e], [upd e])
  | e :: skipped :: rest =>
    if rm (upd e) then
      (skipped :: (spliceTick upd rm rest).1, upd e :: (spliceTick upd rm rest).2)
    else
      (upd e :: (spliceTick upd rm (skipped :: rest)).1,
       upd e :: (spliceTick upd rm (skipped :: rest)).2)

/-- objects/effects.js Burst entity state: the active flag, the burnRate,
    the hue of the converted color, the center and the owned shards. -/
structure Burst where
  active : Bool
  burnRate : ℚ
  hue : ℚ
  centerX : VR
  centerY : VR
  shards : List Particle
deriving DecidableEq

/-- Burst construction: shards from praticleEmitter with vx and vy falling
    back to the range -10 to 10 when the caller passes nothing (the JS ||
    default), rd the range 2 to 4, hue the converted color.hsl[0], alpha
    the emitter default 1.  The source's default n is 10, supplied by
    callers of this definition that omit it. -/
def mkBurst (n : ℕ) (x y : VR) (vx vy : Option VR) (hue : ℚ) (burnRate : ℚ)
    (rs : ℕ → ℕ → ℚ) : Burst :=
  { active := true
    burnRate := burnRate
    hue := hue
    centerX := x
    centerY := y
    shards := praticleEmitter
      { n := n
        x := x
        y := y
        vx := vx.getD (.range (-10) 10)
        vy := vy.getD (.range (-10) 10)
        rd := .range 2 4
        hue := .val hue } rs }

/-- The per-shard update of Burst.tick: integrate velocity, then
    rd becomes the absolute value of rd - burnRate and hue decreases by
    burnRate * 5. -/
def burstUpd (burnRate : ℚ) (p : Particle) : Particle :=
  { p with
    x := p.x + p.vx
    y := p.y + p.vy
    rd := |p.rd - burnRate|
    hue := p.hue - burnRate * 5 }

/-- The Burst removal predicate, tested on the updated shard: rd < 1. -/
def burstRemove (p : Particle) : Bool :=
  decide (p.rd < 1)

/-- Burst.tick: return unchanged when inactive; when the shard collection
    is empty, set active to false; otherwise run the splice loop over the
    shards and keep the survivors. -/
def Burst.tick (b : Burst) : Burst :=
  if !b.active then b
  else if b.shards.length = 0 then { b with active := false }
  else { b with shards := (spliceTick (burstUpd b.burnRate) burstRemove b.shards).1 }

/-- objects/effects.js BlastWave entity state: the active flag, the
    per-tick burnRate multiplier, the hue of the converted color, the
    center and the owned waves. -/
structure BlastWave where
  active : Bool
  burnRate : ℚ
  hue : ℚ
  centerX : ℚ
  centerY : ℚ
  waves : List Wave
deriving DecidableEq

/-- BlastWave construction: burnRate is resolved once, by an unrounded
    randomBetween draw when given as a range (rbr is that Math.random()
    draw), then divided by 100; the wave collection is radialWaveEmitter
    with the emitter default n = 1, rd 25, the given width (source default
    width is 50, supplied by callers that omit it) and alpha 1. -/
def mkBlastWave (x y width : ℚ) (hue : ℚ) (burnRate : VR) (rbr : ℚ)
    (rs : ℕ → ℕ → ℚ) : BlastWave :=
  { active := true
    burnRate :=
      (match burnRate with
       | .range lo hi => randomBetween lo hi false rbr
       | .val v => v) / 100
    hue := hue
    centerX := x
    centerY := y
    waves := radialWaveEmitter
      { x := .val x
        y := .val y
        rd := .val 25
        width := .val width
        hue := .val hue
        alpha := .val 1 } rs }

/-- The per-wave update of BlastWave.tick: rd grows by burnRate * 8, width
    and hue shrink by burnRate / 2, alpha shrinks by burnRate * 0.0075. -/
def waveUpd (burnRate : ℚ) (w : Wave) : Wave :=
  { w with
    rd := w.rd + burnRate * 8
    width := w.width - burnRate / 2
    hue := w.hue - burnRate / 2
    alpha := w.alpha - burnRate * (3/400) }

/-- The BlastWave removal predicate, tested on the updated wave: width < 1. -/
def waveRemove (w : Wave) : Bool :=
  decide (w.width < 1)

/-- BlastWave.tick: return unchanged when inactive; when the wave
    collection is empty, set active to false; otherwise run the splice
    loop over the waves and keep the survivors. -/
def BlastWave.tick (b : BlastWave) : BlastWave :=
  if !b.active then b
  else if b.waves.length = 0 then { b with active := false }
  else { b with waves := (spliceTick (waveUpd b.burnRate) waveRemove b.waves).1 }

/-- objects/effects.js StarStream entity state: the active flag, the target
    population n, the construction parameters reused by createStars, and
    the owned stream, initially empty. -/
structure StarStream where
  active : Bool
  n : ℕ
  x : VR
  y : VR
  vx : VR
  vy : VR
  rd : VR
  hue : ℚ
  stream : List Particle
deriving DecidableEq

/-- StarStream construction: active, stream starts empty. -/
def mkStarStream (n : ℕ) (x y vx vy rd : VR) (hue : ℚ) : StarStream :=
  { active := true
    n := n
    x := x
    y := y
    vx := vx
    vy := vy
    rd := rd
    hue := hue
    stream := [] }

/-- StarStream.createStars: praticleEmitter at the stream's stored
    parameters with hue the converted color.hsl[0] and alpha 0. -/
def StarStream.createStars (s : StarStream) (k : ℕ) (rs : ℕ → ℕ → ℚ) : List Particle :=
  praticleEmitter
    { n := k
      x := s.x
      y := s.y
      vx := s.vx
      vy := s.vy
      rd := s.rd
      hue := .val s.hue
      alpha := .val 0 } rs

/-- The per-star update of StarStream.tick: integrate velocity, rd becomes
    the absolute value of rd - 0.025, hue decreases by 0.01, alpha grows by
    0.050. -/
def starUpd (p : Particle) : Particle :=
  { p with
    x := p.x + p.vx
    y := p.y + p.vy
    rd := |p.rd - 1/40|
    hue := p.hue - 1/100
    alpha := p.alpha + 1/20 }

/-- The StarStream removal predicate, tested on the updated star: the star
    has crossed the bottom edge, y > ctx.canvas.height. -/
def starRemove (height : ℚ) (p : Particle) : Bool :=
  decide (p.y > height)

/-- StarStream.tick: return unchanged when inactive; otherwise run the
    splice loop over the stream (update, remove offscreen, draw) and then
    push one new star from createStars(1) when the surviving population is
    below n.  height is ctx.canvas.height; rs supplies the Math.random()
    draws for the new star. -/
def StarStream.tick (height : ℚ) (rs : ℕ → ℕ → ℚ) (s : StarStream) : StarStream :=
  if !s.active then s
  else if (spliceTick starUpd (starRemove height) s.stream).1.length < s.n then
    { s with stream := (spliceTick starUpd (starRemove height) s.stream).1
                         ++ s.createStars 1 rs }
  else
    { s with stream := (spliceTick starUpd (starRemove height) s.stream).1 }

/-- The tagged union of the three effect entities held in the game's
    effects list. -/
inductive Effect where
  | burst (b : Burst)
  | blastWave (w : BlastWave)
  | starStream (s : StarStream)
deriving DecidableEq

/-- The active flag the per-frame sweep reads after calling tick. -/
def Effect.active : Effect → Bool
  | .burst b => b.active
  | .blastWave w => w.active
  | .starStream s => s.active

/-- Effect.tick dispatch: each variant's own tick.  height and rs are only
    consumed by the StarStream variant. -/
def Effect.tick (height : ℚ) (rs : ℕ → ℕ → ℚ) : Effect → Effect
  | .burst b => .burst b.tick
  | .blastWave w => .blastWave w.tick
  | .starStream s => .starStream (StarStream.tick height rs s)

/-- The per-frame effects sweep of main.js (both in the play branch and in
    the over branch): the same forward splice loop, with effect.tick() as
    the update and the cleared active flag as the removal predicate. -/
def effectsSweep (height : ℚ) (rs : ℕ → ℕ → ℚ) (l : List Effect) : List Effect × List Effect :=
  spliceTick (Effect.tick height rs) (fun e => !e.active) l

/-- main.js game state record, with the keys installed by init(): current
    and prev phase, lane layout, gameSpeed, score, lives, paused, muted.
    In open-mode play lanes, playerLane and laneSize are null in the
    source; the lane claims are stated under the lane-mode hypotheses
    (lanes at least 1). -/
structure GameState where
  current : String
  prev : String
  lanes : ℚ
  playerLane : ℚ
  laneSize : ℚ
  gameSpeed : ℚ
  score : ℚ
  lives : ℚ
  paused : Bool
  muted : Bool
deriving DecidableEq

/-- A partial update passed to setState: any subset of the state keys. -/
structure StateUpdate where
  current : Option String := none
  prev : Option String := none
  lanes : Option ℚ := none
  playerLane : Option ℚ := none
  laneSize : Option ℚ := none
  gameSpeed : Option ℚ := none
  score : Option ℚ := none
  lives : Option ℚ := none
  paused : Option Bool := none
  muted : Option Bool := none
deriving DecidableEq

/-- main.js setState: this.state = spread of the old state, then the
    snapshot object assigning prev := old current, then the partial
    update.  A later spread wins, so every key named by the update takes
    the update's value, prev included; every key the update omits keeps
    the middle spread's value for prev and the old value otherwise. -/
def setState (s : GameState) (u : StateUpdate) : GameState :=
  { current := u.current.getD s.current
    prev := u.prev.getD s.current
    lanes := u.lanes.getD s.lanes
    playerLane := u.playerLane.getD s.playerLane
    laneSize := u.laneSize.getD s.laneSize
    gameSpeed := u.gameSpeed.getD s.gameSpeed
    score := u.score.getD s.score
    lives := u.lives.getD s.lives
    paused := u.paused.getD s.paused
    muted := u.muted.getD s.muted }

/-- main.js shiftRight: setState with playerLane := min(playerLane + 1,
    lanes - 1).  (The turnSound playback is an external collaborator.) -/
def shiftRight (s : GameState) : GameState :=
  setState s { playerLane := some (min (s.playerLane + 1) (s.lanes - 1)) }

/-- main.js shiftLeft: setState with playerLane := max(playerLane - 1, 0). -/
def shiftLeft (s : GameState) : GameState :=
  setState s { playerLane := some (max (s.playerLane - 1) 0) }

/-- The slice of the Game object the game-over check touches: the state
    record and the effects list. -/
structure Game where
  state : GameState
  effects : List Effect

/-- The inputs of the death sequence that come from outside the state:
    player center, converted color hues, the Math.random() draws for the
    three BlastWave burnRate ranges and the emitter draw streams of the
    five effects. -/
structure DeathParams where
  cx : ℚ
  cy : ℚ
  bwHue : ℚ
  burstHue : ℚ
  r1 : ℚ
  r2 : ℚ
  r3 : ℚ
  rsw1 : ℕ → ℕ → ℚ
  rsw2 : ℕ → ℕ → ℚ
  rsw3 : ℕ → ℕ → ℚ
  rs1 : ℕ → ℕ → ℚ
  rs2 : ℕ → ℕ → ℚ

/-- The five effects pushed by the game-over branch of Game.play, in
    source order: BlastWaves of width 300, 150 and 20 with burnRate ranges
    200 to 300, 100 to 200 and 50 to 100, then Bursts of n = 100 (vx range
    -50 to 50, vy range -5 to 5, burnRate 0.05) and n = 25 (vx range -6 to
    6, vy range -60 to 60, burnRate 0.025), all at the player center. -/
def deathSequence (p : DeathParams) : List Effect :=
  [ .blastWave (mkBlastWave p.cx p.cy 300 p.bwHue (VR.range 200 300) p.r1 p.rsw1)
  , .blastWave (mkBlastWave p.cx p.cy 150 p.bwHue (VR.range 100 200) p.r2 p.rsw2)
  , .blastWave (mkBlastWave p.cx p.cy 20 p.bwHue (VR.range 50 100) p.r3 p.rsw3)
  , .burst (mkBurst 100 (VR.val p.cx) (VR.val p.cy)
      (some (VR.range (-50) 50)) (some (VR.range (-5) 5)) p.burstHue (1/20) p.rs1)
  , .burst (mkBurst 25 (VR.val p.cx) (VR.val p.cy)
      (some (VR.range (-6) 6)) (some (VR.range (-60) 60)) p.burstHue (1/40) p.rs2) ]

/-- The game-over check of the play step of Game.play: it runs inside the
    play branch (state.current is the play phase) and, when lives < 1,
    pushes the death sequence onto the effects list and transitions the
    phase to over through setState (which snapshots current into prev).
    The gameOverSound playback is an external collaborator. -/
def gameOverCheck (p : DeathParams) (g : Game) : Game :=
  if g.state.current = "play" ∧ g.state.lives < 1 then
    { state := setState g.state { current := some "over" }
      effects := g.effects ++ deathSequence p }
  else g

/-- Variant test used to count the Bursts of the death sequence. -/
def isBurst : Effect → Bool
  | .burst _ => true
  | _ => false

/-- Variant test used to count the BlastWaves of the death sequence. -/
def isBlastWave : Effect → Bool
  | .blastWave _ => true
  | _ => false

/-- The stroke widths of the waves owned by an effect (empty for the
    non-BlastWave variants). -/
def effectWaveWidths : Effect → List ℚ
  | .blastWave w => w.waves.map Wave.width
  | _ => []

/-- The state captured by the throttled decrementLife closure of the Game
    constructor: the throttle's lastCall timestamp (initially 0) and the
    lives counter it decrements. -/
structure LifeThrottle where
  lastCall : ℤ
  lives : ℚ
deriving DecidableEq

/-- The initial throttle state: lastCall starts at 0 (the closure variable
    of throttled in utils/baseUtils.js) with the given lives. -/
def initLife (lives : ℚ) : LifeThrottle :=
  { lastCall := 0, lives := lives }

/-- One collision event hitting this.decrementLife at wall-clock time now
    (ms): throttled(1200, fn) drops the call when now - lastCall < 1200,
    otherwise records lastCall := now and runs lives -= 1. -/
def collideEvent (s : LifeThrottle) (now : ℤ) : LifeThrottle :=
  if now - s.lastCall < 1200 then s
  else { lastCall := now, lives := s.lives - 1 }

/-- A sequence of collision events folded through the throttle. -/
def collideEvents (s : LifeThrottle) (ts : List ℤ) : LifeThrottle :=
  ts.foldl collideEvent s

/-- The per-attribute contract of the emitter claims: an attribute declared
    as a fixed value passes through exactly; an attribute declared as a
    min-max range with integer endpoints lands inside the closed interval. -/
def attrOk (a : VR) (v : ℚ) : Prop :=
  (∀ c, a = VR.val c → v = c) ∧
  (∀ lo hi : ℤ, a = VR.range (lo : ℚ) (hi : ℚ) → lo ≤ hi → (lo : ℚ) ≤ v ∧ v ≤ (hi : ℚ))

/-- A JS numeric slot for the NaN analysis of effect construction: either a
    number or the NaN that arithmetic on undefined or NaN produces. -/
inductive JSNum where
  | num (q : ℚ)
  | nan
deriving DecidableEq

/-- A possibly-missing constructor parameter entering arithmetic: a missing
    (undefined) parameter behaves as NaN in every JS arithmetic operator. -/
def jsOfOpt : Option ℚ → JSNum
  | some q => .num q
  | none => .nan

/-- JS addition: NaN-absorbing. -/
def jsAdd : JSNum → JSNum → JSNum
  | .num a, .num b => .num (a + b)
  | _, _ => .nan

/-- JS subtraction: NaN-absorbing. -/
def jsSub : JSNum → JSNum → JSNum
  | .num a, .num b => .num (a - b)
  | _, _ => .nan

/-- JS multiplication: NaN-absorbing. -/
def jsMul : JSNum → JSNum → JSNum
  | .num a, .num b => .num (a * b)
  | _, _ => .nan

/-- JS Math.abs: NaN maps to NaN. -/
def jsAbs : JSNum → JSNum
  | .num a => .num |a|
  | .nan => .nan

/-- The JS < comparison: false whenever either side is NaN. -/
def jsLt : JSNum → JSNum → Bool
  | .num a, .num b => decide (a < b)
  | _, _ => false

/-- A Burst shard whose slots may hold NaN. -/
structure ParticleJS where
  x : JSNum
  y : JSNum
  vx : JSNum
  vy : JSNum
  rd : JSNum
  hue : JSNum
  alpha : JSNum
deriving DecidableEq

/-- Burst state for the NaN analysis. -/
structure BurstJS where
  active : Bool
  burnRate : JSNum
  shards : List ParticleJS
deriving DecidableEq

/-- Burst construction with possibly-missing parameters, exactly as the
    source defaults them: n falls back to 10 and vx, vy fall back to the
    range -10 to 10, but x, y and burnRate have no default and are stored
    as they came; a missing x or y passes through valueOrRange unchanged
    (it is not an array) into the shard, and a missing burnRate is stored
    on the entity.  Construction never rejects. -/
def mkBurstJS (n : Option ℕ) (x y : Option ℚ) (vx vy : Option VR)
    (hue : ℚ) (burnRate : Option ℚ) (rs : ℕ → ℕ → ℚ) : BurstJS :=
  { active := true
    burnRate := jsOfOpt burnRate
    shards := (List.range (n.getD 10)).map fun i =>
      { x := jsOfOpt x
        y := jsOfOpt y
        vx := .num (valueOrRange (vx.getD (.range (-10) 10)) (rs i 2))
        vy := .num (valueOrRange (vy.getD (.range (-10) 10)) (rs i 3))
        rd := .num (valueOrRange (.range 2 4) (rs i 4))
        hue := .num hue
        alpha := .num 1 } }

/-- The per-shard update of Burst.tick over NaN-aware slots. -/
def burstUpdJS (burnRate : JSNum) (p : ParticleJS) : ParticleJS :=
  { p with
    x := jsAdd p.x p.vx
    y := jsAdd p.y p.vy
    rd := jsAbs (jsSub p.rd burnRate)
    hue := jsSub p.hue (jsMul burnRate (.num 5)) }

/-- The Burst removal predicate over NaN-aware slots: rd < 1, which is
    false when rd is NaN, so a NaN shard is never removed. -/
def burstRemoveJS (p : ParticleJS) : Bool :=
  jsLt p.rd (.num 1)

/-- Burst.tick over NaN-aware slots: same structure as Burst.tick. -/
def BurstJS.tick (b : BurstJS) : BurstJS :=
  if !b.active then b
  else if b.shards.length = 0 then { b with active := false }
  else { b with shards := (spliceTick (burstUpdJS b.burnRate) burstRemoveJS b.shards).1 }

/-- A Burst constructed with burnRate missing (the failing input of the
    NaN claim): one shard, x = y = 0, vx and vy left to their defaults. -/
def burstNaNEx : BurstJS :=
  mkBurstJS (some 1) (some 0) (some 0) none none 0 none (fun _ _ => 0)

/-- A concrete shard that dies on the next tick at burnRate 2 (rd 2 decays
    to 0, below the removal threshold 1). -/
def shardA : Particle :=
  { x := 0, y := 0, vx := 0, vy := 0, rd := 2, hue := 0, alpha := 1 }

/-- A concrete shard that survives a tick at burnRate 2 (rd 4 decays to 2). -/
def shardB : Particle :=
  { x := 0, y := 0, vx := 0, vy := 0, rd := 4, hue := 0, alpha := 1 }

/-- A Burst whose first shard is removed on the next tick while the second
    should survive and keep decaying. -/
def burstSkipEx : Burst :=
  { active := true, burnRate := 2, hue := 0, centerX := VR.val 0, centerY := VR.val 0,
    shards := [shardA, shardB] }

/-- A concrete lane-mode game state in the play phase. -/
def st8 : GameState :=
  { current := "play", prev := "ready", lanes := 3, playerLane := 1, laneSize := 100,
    gameSpeed := 1, score := 0, lives := 3, paused := false, muted := false }

/-- A partial update that itself names prev. -/
def upd8 : StateUpdate :=
  { prev := some "hacked" }

/-- A partial update that does not name prev. -/
def upd8ok : StateUpdate :=
  { current := some "over", score := some 42 }

/-- A lane-mode state at the right edge (playerLane = lanes - 1). -/
def st10 : GameState :=
  { st8 with playerLane := 2 }

/-- Concrete death-sequence parameters. -/
def dpEx : DeathParams :=
  { cx := 0, cy := 0, bwHue := 0, burstHue := 0, r1 := 0, r2 := 0, r3 := 0,
    rsw1 := fun _ _ => 0, rsw2 := fun _ _ => 0, rsw3 := fun _ _ => 0,
    rs1 := fun _ _ => 0, rs2 := fun _ _ => 0 }

/-- A game in the play phase whose lives just reached 0, with an empty
    effects list. -/
def gOverEx : Game :=
  { state := { st8 with lives := 0 }, effects := [] }

/-- A concrete BlastWave with the default width 50 and fixed burnRate 100
    (stored as the per-tick multiplier 1). -/
def bwEx : BlastWave :=
  mkBlastWave 0 0 50 0 (VR.val 100) 0 (fun _ _ => 0)

/-- Concrete emitter arguments mixing ranges and fixed values. -/
def pargsEx : PEmitterArgs :=
  { n := 2, x := VR.range (-10) 10, y := VR.val 7, vx := VR.range 2 4,
    vy := VR.val (1/3), rd := VR.range 0 6, hue := VR.val 120, alpha := VR.val 1 }

/-- A constant draw stream of one half. -/
def halfStream : ℕ → ℕ → ℚ :=
  fun _ _ => 1/2

/-- Survivors of a splice pass never outnumber the input collection. -/
theorem spliceTick_fst_length_le (upd : α → α) (rm : α → Bool) (l : List α) :
    (spliceTick upd rm l).1.length ≤ l.length := by
  induction l using spliceTick.induct upd rm with
  | case1 => simp [spliceTick]
  | case2 e h => simp [spliceTick, h]
  | case3 e h => simp [spliceTick, h]
  | case4 e skipped rest h ih =>
    simp only [spliceTick, if_pos h, List.length_cons]
    omega
  | case5 e skipped rest h ih =>
    simp only [spliceTick, if_neg h, List.length_cons]
    simp only [List.length_cons] at ih
    omega

/-- Every survivor of a splice pass is an input element, either updated
    (it was processed and kept) or untouched (it was skipped after a
    removal in front of it). -/
theorem spliceTick_fst_mem (upd : α → α) (rm : α → Bool) (l : List α)
    (w : α) (hw : w ∈ (spliceTick upd rm l).1) : ∃ v ∈ l, w = upd v ∨ w = v := by
  induction l using spliceTick.induct upd rm with
  | case1 => simp [spliceTick] at hw
  | case2 e h => simp [spliceTick, h] at hw
  | case3 e h =>
    simp [spliceTick, h] at hw
    exact ⟨e, by simp, Or.inl hw⟩
  | case4 e skipped rest h ih =>
    simp only [spliceTick, if_pos h, List.mem_cons] at hw
    rcases hw with h2 | h2
    · exact ⟨skipped, by simp, Or.inr h2⟩
    · obtain ⟨v, hv, hc⟩ := ih h2
      exact ⟨v, by simp [hv], hc⟩
  | case5 e skipped rest h ih =>
    simp only [spliceTick, if_neg h, List.mem_cons] at hw
    rcases hw with h2 | h2
    · exact ⟨e, by simp, Or.inl h2⟩
    · obtain ⟨v, hv, hc⟩ := ih h2
      exact ⟨v, List.mem_cons_of_mem e hv, hc⟩

/-- Once the throttle has fired, every event inside its window is dropped
    and leaves the whole throttle state unchanged. -/
theorem collideEvents_dropped (s : LifeThrottle) (ts : List ℤ)
    (h : ∀ t ∈ ts, t - s.lastCall < 1200) : collideEvents s ts = s := by
  induction ts with
  | nil => rfl
  | cons t ts ih =>
    have ht : t - s.lastCall < 1200 := h t (List.mem_cons_self t ts)
    have hstep : collideEvent s t = s := by simp [collideEvent, if_pos ht]
    calc collideEvents s (t :: ts) = collideEvents (collideEvent s t) ts := rfl
    _ = collideEvents s ts := by rw [hstep]
    _ = s := ih (fun u hu => h u (List.mem_cons_of_mem t hu))

/-- C1: collision events hitting the throttled decrementLife lose exactly
    one life for a whole burst of events inside one 1200 ms window
    (however many frames the overlap lasts), and exactly two lives for two
    events 1200 ms or more apart.  The first event is assumed to lie at
    least 1200 ms past the throttle's initial lastCall of 0, as every
    wall-clock Date.getTime() value does. -/
theorem life_loss_throttled (l : ℚ) (t1 t2 : ℤ) (ts : List ℤ)
    (h1 : 1200 ≤ t1)
    (hts : ∀ t ∈ ts, t1 ≤ t ∧ t - t1 < 1200)
    (hgap : 1200 ≤ t2 - t1) :
    (collideEvents (initLife l) (t1 :: ts)).lives = l - 1 ∧
    (collideEvents (initLife l) [t1, t2]).lives = l - 2 := by
  have hfire1 : collideEvent (initLife l) t1 = { lastCall := t1, lives := l - 1 } := by
    simp only [collideEvent, initLife]
    rw [if_neg (by omega)]
  constructor
  · have hsplit : collideEvents (initLife l) (t1 :: ts)
        = collideEvents { lastCall := t1, lives := l - 1 } ts := by
      simp [collideEvents, hfire1]
    rw [hsplit, collideEvents_dropped]
    intro t ht
    exact (hts t ht).2
  · have hfire2 : collideEvent { lastCall := t1, lives := l - 1 } t2
        = { lastCall := t2, lives := l - 1 - 1 } := by
      simp only [collideEvent]
      rw [if_neg (by omega)]
    have hsplit2 : collideEvents (initLife l) [t1, t2]
        = ({ lastCall := t2, lives := l - 1 - 1 } : LifeThrottle) := by
      simp [collideEvents, hfire1, hfire2]
    rw [hsplit2]
    show l - 1 - 1 = l - 2
    ring

/-- C1 witness: events at 1200 and 1300 ms (100 ms apart) cost one life;
    events at 1200 and 2400 ms (1200 ms apart) cost two. -/
theorem life_loss_throttled_check :
    (1200 : ℤ) ≤ 1200 ∧ (∀ t ∈ [(1300 : ℤ)], (1200 : ℤ) ≤ t ∧ t - 1200 < 1200) ∧
    (1200 : ℤ) ≤ 2400 - 1200 ∧
    (collideEvents (initLife 3) [1200, 1300]).lives = 3 - 1 ∧
    (collideEvents (initLife 3) [1200, 2400]).lives = 3 - 2 :=
  ⟨by decide, by decide,  by decide,
   (life_loss_throttled 3 1200 2400 [1300] (by decide) (by decide) (by decide)).1,
   (life_loss_throttled 3 1200 2400 [1300] (by decide) (by decide) (by decide)).2⟩

/-- C7: a Burst constructed with n = 0 owns no shards, and its first tick
    evaluation clears its active flag. -/
theorem burst_n0_inactive_first_tick (x y : VR) (vx vy : Option VR)
    (hue burnRate : ℚ) (rs : ℕ → ℕ → ℚ) :
    (mkBurst 0 x y vx vy hue burnRate rs).shards = [] ∧
    ((mkBurst 0 x y vx vy hue burnRate rs).tick).active = false := by
  constructor
  · simp [mkBurst, praticleEmitter]
  · simp [Burst.tick, mkBurst, praticleEmitter]

/-- C3 counterexample: ticking a Burst whose first shard decays below the
    removal threshold leaves the following shard in the collection without
    updating it (its rd should have decayed from 4 to 2 but is still 4)
    and without drawing it (the processed-and-drawn list of the pass holds
    only the updated first shard). -/
theorem burst_tick_skips_following_shard :
    (Burst.tick burstSkipEx).shards = [shardB] ∧
    burstUpd burstSkipEx.burnRate shardB ≠ shardB ∧
    (spliceTick (burstUpd burstSkipEx.burnRate) burstRemove burstSkipEx.shards).2
      = [burstUpd burstSkipEx.burnRate shardA] := by
  have hrm : burstRemove (burstUpd burstSkipEx.burnRate shardA) = true := by
    simp [burstRemove, burstUpd, burstSkipEx, shardA]
  have hsh : burstSkipEx.shards = shardA :: shardB :: [] := rfl
  have hsplice : spliceTick (burstUpd burstSkipEx.burnRate) burstRemove burstSkipEx.shards
      = ([shardB], [burstUpd burstSkipEx.burnRate shardA]) := by
    rw [hsh]
    simp only [spliceTick, if_pos hrm]
  refine ⟨?_, ?_, by rw [hsplice]⟩
  · have ha : burstSkipEx.active = true := rfl
    have hlen : burstSkipEx.shards.length = 2 := rfl
    simp only [Burst.tick, ha, hlen, Bool.not_true, Bool.false_eq_true, if_false,
      OfNat.ofNat_ne_zero, hsplice]
  · intro h
    have hrd := congrArg Particle.rd h
    simp only [burstUpd, burstSkipEx, shardB] at hrd
    norm_num at hrd

/-- C3 amended: the splice loop shared by the effect ticks and the
    per-frame sweep skips exactly the element that follows a removed one:
    when the head's update passes the removal predicate, the head is
    removed yet still processed and drawn, the next element survives the
    pass untouched (neither updated nor drawn), and iteration resumes
    after it. -/
theorem spliceTick_removal_skips_next (upd : α → α) (rm : α → Bool)
    (a b : α) (rest : List α) (h : rm (upd a) = true) :
    spliceTick upd rm (a :: b :: rest)
      = (b :: (spliceTick upd rm rest).1, upd a :: (spliceTick upd rm rest).2) := by
  simp only [spliceTick, if_pos h]

/-- C3 amended witness: the concrete skipping Burst pass. -/
theorem spliceTick_removal_skips_next_check :
    burstRemove (burstUpd burstSkipEx.burnRate shardA) = true ∧
    spliceTick (burstUpd burstSkipEx.burnRate) burstRemove (shardA :: shardB :: [])
      = (shardB :: (spliceTick (burstUpd burstSkipEx.burnRate) burstRemove []).1,
         burstUpd burstSkipEx.burnRate shardA
           :: (spliceTick (burstUpd burstSkipEx.burnRate) burstRemove []).2) :=
  ⟨by simp [burstRemove, burstUpd, burstSkipEx, shardA],
   spliceTick_removal_skips_next (burstUpd burstSkipEx.burnRate) burstRemove
     shardA shardB [] (by simp [burstRemove, burstUpd, burstSkipEx, shardA])⟩

/-- A resolved attribute honours the per-attribute contract: fixed values
    pass through; an integer min-max range, rounded, stays inside the
    closed interval whenever the draw lies in the unit interval. -/
theorem valueOrRange_attrOk (vr : VR) (r : ℚ) (h0 : 0 ≤ r) (h1 : r < 1) :
    attrOk vr (valueOrRange vr r) := by
  cases vr with
  | val v =>
    constructor
    · intro c hc
      cases hc
      rfl
    · intro lo hi hvr hle
      exact absurd hvr (by simp)
  | range a b =>
    constructor
    · intro c hc
      exact absurd hc (by simp)
    · intro lo hi hvr hle
      obtain ⟨ha, hb⟩ : a = (lo : ℚ) ∧ b = (hi : ℚ) := by
        injection hvr with h2 h3
        exact ⟨h2, h3⟩
      subst ha
      subst hb
      have hlohi : (lo : ℚ) ≤ (hi : ℚ) := by exact_mod_cast hle
      simp only [valueOrRange, randomBetween, if_true]
      have hx0 : (lo : ℚ) ≤ r * ((hi : ℚ) - (lo : ℚ)) + (lo : ℚ) := by
        nlinarith [mul_nonneg h0 (sub_nonneg.mpr hlohi)]
      have hx1 : r * ((hi : ℚ) - (lo : ℚ)) + (lo : ℚ) ≤ (hi : ℚ) := by
        nlinarith [mul_le_of_le_one_left (sub_nonneg.mpr hlohi) h1.le]
      have hfl : ⌊((lo : ℚ) + 1/2)⌋ = lo := by
        rw [add_comm, Int.floor_add_int]
        norm_num
      have hfh : ⌊((hi : ℚ) + 1/2)⌋ = hi := by
        rw [add_comm, Int.floor_add_int]
        norm_num
      constructor
      · have h3 : ⌊((lo : ℚ) + 1/2)⌋ ≤ ⌊r * ((hi : ℚ) - (lo : ℚ)) + (lo : ℚ) + 1/2⌋ :=
          Int.floor_le_floor (by linarith)
        rw [hfl] at h3
        exact_mod_cast h3
      · have h3 : ⌊r * ((hi : ℚ) - (lo : ℚ)) + (lo : ℚ) + 1/2⌋ ≤ ⌊((hi : ℚ) + 1/2)⌋ :=
          Int.floor_le_floor (by linarith)
        rw [hfh] at h3
        exact_mod_cast h3

/-- C4 counterexample: an attribute declared as the fractional range from
    2/5 to 3/5 receives, at draw 0, the rounded value 0, which lies
    outside the declared interval. -/
theorem emitter_ranged_value_out_of_interval :
    ((praticleEmitter { n := 1, x := VR.range (2/5) (3/5) } (fun _ _ => 0)).map Particle.x)
      = [0] ∧ ¬ ((2/5 : ℚ) ≤ 0) := by
  constructor
  · simp only [praticleEmitter, List.range_succ, List.range_zero, List.nil_append,
      List.map_cons, List.map_nil, valueOrRange, randomBetween, if_true]
    norm_num
  · norm_num

/-- C4 amended: every particle produced by the emitter receives, for each
    attribute declared as a min-max range with integer endpoints, an
    integer-rounded value inside the declared closed interval, and for
    each attribute declared as a fixed value exactly that value; the
    emitter yields n samples and n = 0 yields the empty collection.  The
    draws are assumed to lie in the unit interval, as Math.random()
    guarantees. -/
theorem emitter_attrs_in_declared_interval (a : PEmitterArgs) (rs : ℕ → ℕ → ℚ)
    (hr : ∀ i j, 0 ≤ rs i j ∧ rs i j < 1) :
    (praticleEmitter a rs).length = a.n ∧
    (a.n = 0 → praticleEmitter a rs = []) ∧
    ∀ p ∈ praticleEmitter a rs,
      attrOk a.x p.x ∧ attrOk a.y p.y ∧ attrOk a.vx p.vx ∧ attrOk a.vy p.vy ∧
      attrOk a.rd p.rd ∧ attrOk a.hue p.hue ∧ attrOk a.alpha p.alpha := by
  refine ⟨by simp [praticleEmitter], fun h => by simp [praticleEmitter, h], ?_⟩
  intro p hp
  simp only [praticleEmitter, List.mem_map, List.mem_range] at hp
  obtain ⟨i, hi, rfl⟩ := hp
  exact ⟨valueOrRange_attrOk _ _ (hr i 0).1 (hr i 0).2,
         valueOrRange_attrOk _ _ (hr i 1).1 (hr i 1).2,
         valueOrRange_attrOk _ _ (hr i 2).1 (hr i 2).2,
         valueOrRange_attrOk _ _ (hr i 3).1 (hr i 3).2,
         valueOrRange_attrOk _ _ (hr i 4).1 (hr i 4).2,
         valueOrRange_attrOk _ _ (hr i 5).1 (hr i 5).2,
         valueOrRange_attrOk _ _ (hr i 6).1 (hr i 6).2⟩

/-- C4 amended witness: the contract at concrete mixed arguments with the
    constant draw one half. -/
theorem emitter_attrs_in_declared_interval_check :
    (∀ i j, 0 ≤ halfStream i j ∧ halfStream i j < 1) ∧
    ((praticleEmitter pargsEx halfStream).length = pargsEx.n ∧
     (pargsEx.n = 0 → praticleEmitter pargsEx halfStream = []) ∧
     ∀ p ∈ praticleEmitter pargsEx halfStream,
       attrOk pargsEx.x p.x ∧ attrOk pargsEx.y p.y ∧ attrOk pargsEx.vx p.vx ∧
       attrOk pargsEx.vy p.vy ∧ attrOk pargsEx.rd p.rd ∧ attrOk pargsEx.hue p.hue ∧
       attrOk pargsEx.alpha p.alpha) :=
  ⟨fun i j => ⟨by norm_num [halfStream], by norm_num [halfStream]⟩,
   emitter_attrs_in_declared_interval pargsEx halfStream
     (fun i j => ⟨by norm_num [halfStream], by norm_num [halfStream]⟩)⟩

/-- One StarStream tick never lets the population exceed the target n and
    never changes n. -/
theorem starStream_tick_population (h : ℚ) (rs : ℕ → ℕ → ℚ) (s : StarStream)
    (hle : s.stream.length ≤ s.n) :
    (StarStream.tick h rs s).stream.length ≤ s.n ∧ (StarStream.tick h rs s).n = s.n := by
  unfold StarStream.tick
  cases ha : s.active with
  | false =>
    exact ⟨hle, rfl⟩
  | true =>
    simp only [Bool.not_true, Bool.false_eq_true, if_false]
    have hlen : (spliceTick starUpd (starRemove h) s.stream).1.length ≤ s.stream.length :=
      spliceTick_fst_length_le _ _ _
    by_cases hlt : (spliceTick starUpd (starRemove h) s.stream).1.length < s.n
    · rw [if_pos hlt]
      refine ⟨?_, rfl⟩
      show ((spliceTick starUpd (starRemove h) s.stream).1 ++ s.createStars 1 rs).length ≤ s.n
      rw [List.length_append]
      have hone : (StarStream.createStars s 1 rs).length = 1 := by
        simp [StarStream.createStars, praticleEmitter]
      omega
    · rw [if_neg hlt]
      refine ⟨?_, rfl⟩
      show (spliceTick starUpd (starRemove h) s.stream).1.length ≤ s.n
      omega

/-- C5: a StarStream constructed with target population n never holds more
    than n stars, across any sequence of ticks with any canvas heights and
    any random draws. -/
theorem starStream_population_never_exceeds_n (n : ℕ) (x y vx vy rd : VR) (hue : ℚ)
    (ticks : List (ℚ × (ℕ → ℕ → ℚ))) :
    ((ticks.foldl (fun s ti => StarStream.tick ti.1 ti.2 s)
        (mkStarStream n x y vx vy rd hue)).stream).length ≤ n := by
  have key : ∀ (ts : List (ℚ × (ℕ → ℕ → ℚ))) (s : StarStream),
      s.stream.length ≤ s.n →
      ((ts.foldl (fun s ti => StarStream.tick ti.1 ti.2 s) s).stream.length ≤
        (ts.foldl (fun s ti => StarStream.tick ti.1 ti.2 s) s).n ∧
       (ts.foldl (fun s ti => StarStream.tick ti.1 ti.2 s) s).n = s.n) := by
    intro ts
    induction ts with
    | nil => exact fun s hs => ⟨hs, rfl⟩
    | cons t ts ih =>
      intro s hs
      simp only [List.foldl_cons]
      have h1 := starStream_tick_population t.1 t.2 s hs
      have h2 := ih (StarStream.tick t.1 t.2 s) (le_of_le_of_eq h1.1 h1.2.symm)
      exact ⟨h2.1, by rw [h2.2, h1.2]⟩
  have h0 : (mkStarStream n x y vx vy rd hue).stream.length ≤
      (mkStarStream n x y vx vy rd hue).n := by
    simp [mkStarStream]
  have hfin := key ticks (mkStarStream n x y vx vy rd hue) h0
  have hn : (ticks.foldl (fun s ti => StarStream.tick ti.1 ti.2 s)
      (mkStarStream n x y vx vy rd hue)).n = n := hfin.2
  exact le_of_le_of_eq hfin.1 hn

/-- C6: a BlastWave tick never grows the wave collection, and every
    surviving wave's stroke width is bounded by the width some wave had
    before the tick (updated waves shrink by burnRate / 2, skipped waves
    are unchanged), provided burnRate is non-negative. -/
theorem blastWave_count_and_width_monotone (b : BlastWave) (hbr : 0 ≤ b.burnRate) :
    (BlastWave.tick b).waves.length ≤ b.waves.length ∧
    ∀ w ∈ (BlastWave.tick b).waves, ∃ v ∈ b.waves, w.width ≤ v.width := by
  unfold BlastWave.tick
  by_cases ha : b.active
  · simp only [ha, Bool.not_true, Bool.false_eq_true, if_false]
    by_cases hz : b.waves.length = 0
    · rw [if_pos hz]
      exact ⟨le_rfl, fun w hw => ⟨w, hw, le_rfl⟩⟩
    · rw [if_neg hz]
      constructor
      · exact spliceTick_fst_length_le _ _ _
      · intro w hw
        obtain ⟨v, hv, hc⟩ := spliceTick_fst_mem _ _ _ w hw
        rcases hc with h | h
        · refine ⟨v, hv, ?_⟩
          rw [h]
          simp only [waveUpd]
          linarith
        · exact ⟨v, hv, le_of_eq (by rw [h])⟩
  · simp only [Bool.not_eq_true] at ha
    simp only [ha, Bool.not_false, if_true]
    exact ⟨le_rfl, fun w hw => ⟨w, hw, le_rfl⟩⟩

/-- C6 witness: the concrete BlastWave with fixed burnRate 100 (per-tick
    multiplier 1). -/
theorem blastWave_count_and_width_monotone_check :
    0 ≤ bwEx.burnRate ∧
    ((BlastWave.tick bwEx).waves.length ≤ bwEx.waves.length ∧
     ∀ w ∈ (BlastWave.tick bwEx).waves, ∃ v ∈ bwEx.waves, w.width ≤ v.width) :=
  ⟨by norm_num [bwEx, mkBlastWave],
   blastWave_count_and_width_monotone bwEx (by norm_num [bwEx, mkBlastWave])⟩

/-- C2: inside the play phase, the frame on which lives reads below 1
    appends exactly the five-effect death sequence (three BlastWaves of
    strictly decreasing widths 300, 150, 20, then two Bursts) to the
    effects list and transitions the phase to over on that same frame
    (prev records the play phase); the check is then disabled, so the
    sequence is pushed only once. -/
theorem game_over_death_sequence (p : DeathParams) (g : Game)
    (hp : g.state.current = "play") (hl : g.state.lives < 1) :
    (gameOverCheck p g).effects = g.effects ++ deathSequence p ∧
    ((deathSequence p).filter isBurst).length = 2 ∧
    ((deathSequence p).filter isBlastWave).length = 3 ∧
    (deathSequence p).map effectWaveWidths = [[300], [150], [20], [], []] ∧
    (gameOverCheck p g).state.current = "over" ∧
    (gameOverCheck p g).state.prev = "play" ∧
    gameOverCheck p (gameOverCheck p g) = gameOverCheck p g := by
  have hcond : g.state.current = "play" ∧ g.state.lives < 1 := ⟨hp, hl⟩
  have hstep : gameOverCheck p g
      = { state := setState g.state { current := some "over" }
          effects := g.effects ++ deathSequence p } := by
    unfold gameOverCheck
    rw [if_pos hcond]
  refine ⟨by rw [hstep], rfl, rfl, rfl, by rw [hstep]; rfl, ?_, ?_⟩
  · rw [hstep]
    exact hp
  · have hne : ¬ (({ state := setState g.state { current := some "over" }
                     effects := g.effects ++ deathSequence p } : Game).state.current = "play"
                  ∧ ({ state := setState g.state { current := some "over" }
                       effects := g.effects ++ deathSequence p } : Game).state.lives < 1) := by
      intro hco
      have hov : ("over" : String) = "play" := hco.1
      exact absurd hov (by decide)
    rw [hstep]
    unfold gameOverCheck
    rw [if_neg hne]

/-- C2 witness: the death sequence at a concrete play-phase game with
    lives 0 and an empty effects list. -/
theorem game_over_death_sequence_check :
    gOverEx.state.current = "play" ∧ gOverEx.state.lives < 1 ∧
    ((gameOverCheck dpEx gOverEx).effects = gOverEx.effects ++ deathSequence dpEx ∧
     ((deathSequence dpEx).filter isBurst).length = 2 ∧
     ((deathSequence dpEx).filter isBlastWave).length = 3 ∧
     (deathSequence dpEx).map effectWaveWidths = [[300], [150], [20], [], []] ∧
     (gameOverCheck dpEx gOverEx).state.current = "over" ∧
     (gameOverCheck dpEx gOverEx).state.prev = "play" ∧
     gameOverCheck dpEx (gameOverCheck dpEx gOverEx) = gameOverCheck dpEx gOverEx) :=
  ⟨rfl, by norm_num [gOverEx, st8],
   game_over_death_sequence dpEx gOverEx rfl (by norm_num [gOverEx, st8])⟩

/-- C8 counterexample: a partial update that itself names prev overrides
    the snapshot, so prev does not equal the phase that was current
    immediately before the call. -/
theorem setState_update_overrides_prev_snapshot :
    (setState st8 upd8).prev = "hacked" ∧ st8.current = "play" ∧
    ¬ ((setState st8 upd8).prev = st8.current) := by
  refine ⟨rfl, rfl, ?_⟩
  intro h
  have h2 : ("hacked" : String) = "play" := h
  exact absurd h2 (by decide)

/-- C8 amended: when the partial update does not itself name prev, setState
    snapshots the pre-call current into prev (also across consecutive
    rapid calls), sets every field named by the update to the update's
    value, and leaves every other field unchanged; an update naming prev
    overrides the snapshot because the update is spread last. -/
theorem setState_merge_semantics (s : GameState) (u : StateUpdate)
    (h : u.prev = none) :
    (setState s u).prev = s.current ∧
    (u.current = none → (setState s u).current = s.current) ∧
    (∀ v, u.current = some v → (setState s u).current = v) ∧
    (u.lanes = none → (setState s u).lanes = s.lanes) ∧
    (∀ v, u.lanes = some v → (setState s u).lanes = v) ∧
    (u.playerLane = none → (setState s u).playerLane = s.playerLane) ∧
    (∀ v, u.playerLane = some v → (setState s u).playerLane = v) ∧
    (u.laneSize = none → (setState s u).laneSize = s.laneSize) ∧
    (∀ v, u.laneSize = some v → (setState s u).laneSize = v) ∧
    (u.gameSpeed = none → (setState s u).gameSpeed = s.gameSpeed) ∧
    (∀ v, u.gameSpeed = some v → (setState s u).gameSpeed = v) ∧
    (u.score = none → (setState s u).score = s.score) ∧
    (∀ v, u.score = some v → (setState s u).score = v) ∧
    (u.lives = none → (setState s u).lives = s.lives) ∧
    (∀ v, u.lives = some v → (setState s u).lives = v) ∧
    (u.paused = none → (setState s u).paused = s.paused) ∧
    (∀ v, u.paused = some v → (setState s u).paused = v) ∧
    (u.muted = none → (setState s u).muted = s.muted) ∧
    (∀ v, u.muted = some v → (setState s u).muted = v) ∧
    (∀ u2 : StateUpdate, u2.prev = none →
      (setState (setState s u) u2).prev = (setState s u).current) := by
  refine ⟨by simp [setState, h], ?_, ?_, ?_, ?_, ?_, ?_, ?_, ?_, ?_, ?_, ?_, ?_, ?_,
    ?_, ?_, ?_, ?_, ?_, ?_⟩
  all_goals
    first
    | (intro hx; simp [setState, hx])
    | (intro v hv; simp [setState, hv])

/-- C8 amended witness: the merge semantics at a concrete state and a
    concrete update naming current and score only. -/
theorem setState_merge_semantics_check :
    upd8ok.prev = none ∧
    ((setState st8 upd8ok).prev = st8.current ∧
    (upd8ok.current = none → (setState st8 upd8ok).current = st8.current) ∧
    (∀ v, upd8ok.current = some v → (setState st8 upd8ok).current = v) ∧
    (upd8ok.lanes = none → (setState st8 upd8ok).lanes = st8.lanes) ∧
    (∀ v, upd8ok.lanes = some v → (setState st8 upd8ok).lanes = v) ∧
    (upd8ok.playerLane = none → (setState st8 upd8ok).playerLane = st8.playerLane) ∧
    (∀ v, upd8ok.playerLane = some v → (setState st8 upd8ok).playerLane = v) ∧
    (upd8ok.laneSize = none → (setState st8 upd8ok).laneSize = st8.laneSize) ∧
    (∀ v, upd8ok.laneSize = some v → (setState st8 upd8ok).laneSize = v) ∧
    (upd8ok.gameSpeed = none → (setState st8 upd8ok).gameSpeed = st8.gameSpeed) ∧
    (∀ v, upd8ok.gameSpeed = some v → (setState st8 upd8ok).gameSpeed = v) ∧
    (upd8ok.score = none → (setState st8 upd8ok).score = st8.score) ∧
    (∀ v, upd8ok.score = some v → (setState st8 upd8ok).score = v) ∧
    (upd8ok.lives = none → (setState st8 upd8ok).lives = st8.lives) ∧
    (∀ v, upd8ok.lives = some v → (setState st8 upd8ok).lives = v) ∧
    (upd8ok.paused = none → (setState st8 upd8ok).paused = st8.paused) ∧
    (∀ v, upd8ok.paused = some v → (setState st8 upd8ok).paused = v) ∧
    (upd8ok.muted = none → (setState st8 upd8ok).muted = st8.muted) ∧
    (∀ v, upd8ok.muted = some v → (setState st8 upd8ok).muted = v) ∧
    (∀ u2 : StateUpdate, u2.prev = none →
      (setState (setState st8 upd8ok) u2).prev = (setState st8 upd8ok).current)) :=
  ⟨rfl, setState_merge_semantics st8 upd8ok rfl⟩

/-- C9: evaluating the code at the failing input.  A Burst constructed
    with burnRate missing is accepted rather than rejected or defaulted
    (it is active with its shard built), and its very first tick drives
    the shard's rd and hue to NaN; the NaN rd moreover fails the removal
    test rd < 1, so the shard is never removed and the burst never
    exhausts. -/
theorem burst_missing_burnRate_propagates_nan :
    burstNaNEx.active = true ∧
    burstNaNEx.burnRate = JSNum.nan ∧
    (BurstJS.tick burstNaNEx).shards.map ParticleJS.rd = [JSNum.nan] ∧
    (BurstJS.tick burstNaNEx).shards.map ParticleJS.hue = [JSNum.nan] ∧
    (BurstJS.tick burstNaNEx).active = true :=
  ⟨rfl, rfl, rfl, rfl, rfl⟩

/-- C10: with at least one lane and playerLane inside the lane interval,
    shiftRight clamps to min(playerLane + 1, lanes - 1) and shiftLeft to
    max(playerLane - 1, 0), both stay inside the interval, and repeated
    shifts at either edge leave the lane unchanged. -/
theorem shift_lane_clamped (s : GameState) (h1 : 1 ≤ s.lanes)
    (h0 : 0 ≤ s.playerLane) (h2 : s.playerLane ≤ s.lanes - 1) :
    (shiftRight s).playerLane = min (s.playerLane + 1) (s.lanes - 1) ∧
    (shiftLeft s).playerLane = max (s.playerLane - 1) 0 ∧
    0 ≤ (shiftRight s).playerLane ∧ (shiftRight s).playerLane ≤ s.lanes - 1 ∧
    0 ≤ (shiftLeft s).playerLane ∧ (shiftLeft s).playerLane ≤ s.lanes - 1 ∧
    (s.playerLane = s.lanes - 1 → (shiftRight s).playerLane = s.playerLane) ∧
    (s.playerLane = 0 → (shiftLeft s).playerLane = s.playerLane) := by
  have e1 : (shiftRight s).playerLane = min (s.playerLane + 1) (s.lanes - 1) := rfl
  have e2 : (shiftLeft s).playerLane = max (s.playerLane - 1) 0 := rfl
  refine ⟨e1, e2, ?_, ?_, ?_, ?_, ?_, ?_⟩
  · rw [e1]
    exact le_min (by linarith) (by linarith)
  · rw [e1]
    exact min_le_right _ _
  · rw [e2]
    exact le_max_right _ _
  · rw [e2]
    exact max_le (by linarith) (by linarith)
  · intro he
    rw [e1, he]
    exact min_eq_right (by linarith)
  · intro he
    rw [e2, he]
    exact max_eq_right (by linarith)

/-- C10 witness: the clamps at a concrete three-lane state sitting at the
    right edge. -/
theorem shift_lane_clamped_check :
    1 ≤ st10.lanes ∧ 0 ≤ st10.playerLane ∧ st10.playerLane ≤ st10.lanes - 1 ∧
    ((shiftRight st10).playerLane = min (st10.playerLane + 1) (st10.lanes - 1) ∧
     (shiftLeft st10).playerLane = max (st10.playerLane - 1) 0 ∧
     0 ≤ (shiftRight st10).playerLane ∧ (shiftRight st10).playerLane ≤ st10.lanes - 1 ∧
     0 ≤ (shiftLeft st10).playerLane ∧ (shiftLeft st10).playerLane ≤ st10.lanes - 1 ∧
     (st10.playerLane = st10.lanes - 1 → (shiftRight st10).playerLane = st10.playerLane) ∧
     (st10.playerLane = 0 → (shiftLeft st10).playerLane = st10.playerLane)) :=
  ⟨by norm_num [st10, st8], by norm_num [st10, st8], by norm_num [st10, st8],
   shift_lane_clamped st10 (by norm_num [st10, st8]) (by norm_num [st10, st8])
     (by norm_num [st10, st8])⟩
